import Mathlib

/-!
Verification of the Layton flow-reconstruction and classification engine
(src-tauri/src/processor/flow.rs, processor/engine.rs, capture/sniffer.rs,
classifier/classifier.rs), as a shallow embedding in Lean.

Conventions of the embedding:
* Machine integers (u8, u16, u32, u64, i32) are modelled as Nat.  No claim
  under verification exercises wrap-around, and counters in the source only
  grow by small increments; Rust saturating_sub on unsigned integers is
  exactly Nat subtraction.  Where the source uses an unchecked subtraction
  the operands are timestamps that are monotone along any packet sequence
  fed to the functions here, so Nat subtraction agrees with the source.
* f64 accumulator fields (Welford means and M2 values, rates, ratios and
  bulk-byte accumulators) are modelled as exact rationals; no claim under
  verification depends on floating-point rounding.  Fields obtained by a
  square root (the *_std fields) and the field fwd_seg_size_min (whose
  sentinel is the floating-point infinity) are omitted from the model:
  no claim reads them, and they feed back into nothing.
* The field classification_time (a wall-clock SystemTime) is omitted.
-/

namespace Layton

/-- Sentinel value that the source writes as u32::MAX. -/
def u32Max : Nat := 2 ^ 32 - 1

/-- Sentinel value that the source writes as u64::MAX. -/
def u64Max : Nat := 2 ^ 64 - 1

/-- Flow timeout in microseconds (FLOW_TIMEOUT_US in flow.rs). -/
def FLOW_TIMEOUT_US : Nat := 120000000

/-- Subflow timeout in microseconds (SUBFLOW_TIMEOUT_US in flow.rs). -/
def SUBFLOW_TIMEOUT_US : Nat := 1000000

/-- Activity timeout in microseconds (ACTIVITY_TIMEOUT_US in flow.rs). -/
def ACTIVITY_TIMEOUT_US : Nat := 5000000

/-- Minimum packets for a bulk transfer (BULK_THRESHOLD in flow.rs). -/
def BULK_THRESHOLD : Nat := 4

/-- Rust lexicographic order on pairs: (a, b) <= (c, d) compares the first
components and breaks ties on the second, as used in FlowKey::new. -/
def lexLe (x y : Nat × Nat) : Bool :=
  x.1 < y.1 || (x.1 == y.1 && x.2 ≤ y.2)

/-- The canonical 5-tuple key of a flow (struct FlowKey in flow.rs). -/
structure FlowKey where
  ip_a : Nat
  ip_b : Nat
  port_a : Nat
  port_b : Nat
  protocol : Nat
deriving DecidableEq, Repr

/-- FlowKey::new in flow.rs: normalize the key so both directions of the
conversation map to the same entry. -/
def FlowKey.new (src_ip dst_ip src_port dst_port protocol : Nat) : FlowKey :=
  if lexLe (src_ip, src_port) (dst_ip, dst_port) then
    { ip_a := src_ip, ip_b := dst_ip, port_a := src_port, port_b := dst_port,
      protocol := protocol }
  else
    { ip_a := dst_ip, ip_b := src_ip, port_a := dst_port, port_b := src_port,
      protocol := protocol }

/-- enum FlowDirection in flow.rs. -/
inductive FlowDirection where
  | Forward
  | Backward
deriving DecidableEq, Repr

/-- enum FlowStatus in flow.rs. -/
inductive FlowStatus where
  | Active
  | Idle
  | Closed
  | Expired
deriving DecidableEq, Repr

/-- enum FlowCloseState in flow.rs. -/
inductive FlowCloseState where
  | NonClosing
  | FinCli
  | AckFinSv
  | AckCli
deriving DecidableEq, Repr

end Layton

namespace Layton

/-- struct FlowRecord in flow.rs.  Integer fields are Nat, f64 accumulators
are Rat; the *_std fields, fwd_seg_size_min, fwd_segment_size_tot,
bwd_segment_size_tot and classification_time are omitted (see the header
comment of this file). -/
structure FlowRecord where
  key : FlowKey
  status : FlowStatus
  close_state : FlowCloseState
  first_packet_forward : Bool
  last_packet_timestamp : Nat
  last_fwd_packet_timestamp : Nat
  last_bwd_packet_timestamp : Nat
  flow_start_time : Nat
  flow_last_time : Nat
  flow_duration : Nat
  last_checked_time : Nat
  total_packets : Nat
  total_fwd_packets : Nat
  total_bwd_packets : Nat
  fwd_packet_count : Nat
  bwd_packet_count : Nat
  total_bytes : Nat
  total_fwd_bytes : Nat
  total_bwd_bytes : Nat
  fwd_packet_len_min : Nat
  fwd_packet_len_max : Nat
  fwd_packet_len_mean : Rat
  fwd_packet_len_m2 : Rat
  bwd_packet_len_min : Nat
  bwd_packet_len_max : Nat
  bwd_packet_len_mean : Rat
  bwd_packet_len_m2 : Rat
  fwd_header_len : Nat
  bwd_header_len : Nat
  flow_bytes_per_sec : Rat
  flow_packets_per_sec : Rat
  flow_iat_total : Nat
  flow_iat_min : Nat
  flow_iat_max : Nat
  flow_iat_mean : Rat
  flow_iat_m2 : Rat
  fwd_iat_min : Nat
  fwd_iat_max : Nat
  fwd_iat_mean : Rat
  fwd_iat_total : Nat
  fwd_iat_m2 : Rat
  bwd_iat_min : Nat
  bwd_iat_max : Nat
  bwd_iat_mean : Rat
  bwd_iat_total : Nat
  bwd_iat_m2 : Rat
  fwd_psh_flags : Nat
  bwd_psh_flags : Nat
  fwd_urg_flags : Nat
  bwd_urg_flags : Nat
  fwd_packets_per_sec : Rat
  bwd_packets_per_sec : Rat
  packet_len_min : Nat
  packet_len_max : Nat
  packet_len_mean : Rat
  packet_len_variance : Rat
  packet_len_m2 : Rat
  fin_flag_count : Nat
  syn_flag_count : Nat
  rst_flag_count : Nat
  psh_flag_count : Nat
  ack_flag_count : Nat
  urg_flag_count : Nat
  cwr_flag_count : Nat
  ece_flag_count : Nat
  down_up_ratio : Rat
  avg_packet_size : Rat
  fwd_segment_size_avg : Rat
  bwd_segment_size_avg : Rat
  num_fwd_bulk_transmissions : Nat
  fwd_bulk_start : Nat
  fwd_bulk_end : Nat
  fwd_bulk_duration : Nat
  fwd_bytes_curr_bulk : Rat
  fwd_bytes_bulk_tot : Rat
  fwd_packet_bulk_tot : Rat
  fwd_bytes_bulk_avg : Rat
  fwd_packet_bulk_avg : Rat
  fwd_bulk_rate_avg : Rat
  num_bwd_bulk_transmissions : Nat
  bwd_bulk_start : Nat
  bwd_bulk_end : Nat
  bwd_bulk_duration : Nat
  bwd_bytes_curr_bulk : Rat
  bwd_bytes_bulk_tot : Rat
  bwd_packet_bulk_tot : Rat
  bwd_bytes_bulk_avg : Rat
  bwd_packet_bulk_avg : Rat
  bwd_bulk_rate_avg : Rat
  fwd_consecutive_packets : Nat
  bwd_consecutive_packets : Nat
  last_bulk_direction : Option FlowDirection
  total_fwd_subflows : Nat
  subflow_fwd_packets : Nat
  subflow_fwd_bytes : Nat
  total_bwd_subflows : Nat
  subflow_bwd_packets : Nat
  subflow_bwd_bytes : Nat
  fwd_init_win_bytes : Nat
  bwd_init_win_bytes : Nat
  fwd_act_data_packets : Nat
  active_counts : Nat
  active_time_tot : Nat
  active_min : Nat
  active_max : Nat
  active_mean : Rat
  active_time_m2 : Rat
  last_activity_time : Nat
  current_active_start : Nat
  current_idle_start : Nat
  is_in_active_period : Bool
  idle_counts : Nat
  idle_time_tot : Nat
  idle_min : Nat
  idle_max : Nat
  idle_mean : Rat
  idle_time_m2 : Rat
  classified : Bool
  benign : Bool
  confidence : Rat

/-- FlowRecord::new in flow.rs. -/
def FlowRecord.new (key : FlowKey) (start_time : Nat)
    (first_packet_direction : FlowDirection) : FlowRecord where
  key := key
  status := FlowStatus.Active
  close_state := FlowCloseState.NonClosing
  first_packet_forward := first_packet_direction = FlowDirection.Forward
  last_packet_timestamp := start_time
  last_fwd_packet_timestamp := start_time
  last_bwd_packet_timestamp := 0
  flow_start_time := start_time
  flow_last_time := start_time
  flow_duration := 0
  last_checked_time := start_time
  total_packets := 0
  total_fwd_packets := 0
  total_bwd_packets := 0
  fwd_packet_count := 0
  bwd_packet_count := 0
  total_bytes := 0
  total_fwd_bytes := 0
  total_bwd_bytes := 0
  fwd_packet_len_min := u32Max
  fwd_packet_len_max := 0
  fwd_packet_len_mean := 0
  fwd_packet_len_m2 := 0
  bwd_packet_len_min := u32Max
  bwd_packet_len_max := 0
  bwd_packet_len_mean := 0
  bwd_packet_len_m2 := 0
  fwd_header_len := 0
  bwd_header_len := 0
  flow_bytes_per_sec := 0
  flow_packets_per_sec := 0
  flow_iat_total := 0
  flow_iat_min := u64Max
  flow_iat_max := 0
  flow_iat_mean := 0
  flow_iat_m2 := 0
  fwd_iat_min := u64Max
  fwd_iat_max := 0
  fwd_iat_mean := 0
  fwd_iat_total := 0
  fwd_iat_m2 := 0
  bwd_iat_min := u64Max
  bwd_iat_max := 0
  bwd_iat_mean := 0
  bwd_iat_total := 0
  bwd_iat_m2 := 0
  fwd_psh_flags := 0
  bwd_psh_flags := 0
  fwd_urg_flags := 0
  bwd_urg_flags := 0
  fwd_packets_per_sec := 0
  bwd_packets_per_sec := 0
  packet_len_min := u32Max
  packet_len_max := 0
  packet_len_mean := 0
  packet_len_variance := 0
  packet_len_m2 := 0
  fin_flag_count := 0
  syn_flag_count := 0
  rst_flag_count := 0
  psh_flag_count := 0
  ack_flag_count := 0
  urg_flag_count := 0
  cwr_flag_count := 0
  ece_flag_count := 0
  down_up_ratio := 0
  avg_packet_size := 0
  fwd_segment_size_avg := 0
  bwd_segment_size_avg := 0
  num_fwd_bulk_transmissions := 0
  fwd_bulk_start := 0
  fwd_bulk_end := 0
  fwd_bulk_duration := 0
  fwd_bytes_curr_bulk := 0
  fwd_bytes_bulk_tot := 0
  fwd_packet_bulk_tot := 0
  fwd_bytes_bulk_avg := 0
  fwd_packet_bulk_avg := 0
  fwd_bulk_rate_avg := 0
  num_bwd_bulk_transmissions := 0
  bwd_bulk_start := 0
  bwd_bulk_end := 0
  bwd_bulk_duration := 0
  bwd_bytes_curr_bulk := 0
  bwd_bytes_bulk_tot := 0
  bwd_packet_bulk_tot := 0
  bwd_bytes_bulk_avg := 0
  bwd_packet_bulk_avg := 0
  bwd_bulk_rate_avg := 0
  fwd_consecutive_packets := 1
  bwd_consecutive_packets := 0
  last_bulk_direction := none
  total_fwd_subflows := 0
  subflow_fwd_packets := 0
  subflow_fwd_bytes := 0
  total_bwd_subflows := 0
  subflow_bwd_packets := 0
  subflow_bwd_bytes := 0
  fwd_init_win_bytes := 0
  bwd_init_win_bytes := 0
  fwd_act_data_packets := 0
  active_counts := 0
  active_time_tot := 0
  active_min := u64Max
  active_max := 0
  active_mean := 0
  active_time_m2 := 0
  last_activity_time := start_time
  current_active_start := start_time
  current_idle_start := 0
  is_in_active_period := true
  idle_counts := 0
  idle_time_tot := 0
  idle_min := u64Max
  idle_max := 0
  idle_mean := 0
  idle_time_m2 := 0
  classified := false
  benign := true
  confidence := 0

end Layton

namespace Layton

/-- FlowRecord::get_flow_direction in flow.rs: compare the packet's actual
src/dst with the normalized flow key. -/
def FlowRecord.get_flow_direction (f : FlowRecord)
    (src_ip dst_ip src_port dst_port : Nat) : FlowDirection :=
  if f.key.ip_a = src_ip ∧ f.key.ip_b = dst_ip ∧
     f.key.port_a = src_port ∧ f.key.port_b = dst_port then
    FlowDirection.Forward
  else
    FlowDirection.Backward

/-- FlowRecord::update_subflow_features in flow.rs. -/
def FlowRecord.update_subflow_features (f : FlowRecord) (timestamp : Nat)
    (direction : FlowDirection) (payload_len : Nat) : FlowRecord :=
  match direction with
  | FlowDirection.Forward =>
    if f.last_fwd_packet_timestamp > 0 then
      -- time_gap uses saturating_sub in the source, which is Nat subtraction
      let time_gap := timestamp - f.last_fwd_packet_timestamp
      if time_gap > SUBFLOW_TIMEOUT_US then
        { f with total_fwd_subflows := f.total_fwd_subflows + 1,
                 subflow_fwd_packets := 1,
                 subflow_fwd_bytes := payload_len }
      else
        { f with subflow_fwd_packets := f.subflow_fwd_packets + 1,
                 subflow_fwd_bytes := f.subflow_fwd_bytes + payload_len }
    else
      { f with total_fwd_subflows := 1,
               subflow_fwd_packets := 1,
               subflow_fwd_bytes := payload_len }
  | FlowDirection.Backward =>
    if f.last_bwd_packet_timestamp > 0 then
      let time_gap := timestamp - f.last_bwd_packet_timestamp
      if time_gap > SUBFLOW_TIMEOUT_US then
        { f with total_bwd_subflows := f.total_bwd_subflows + 1,
                 subflow_bwd_packets := 1,
                 subflow_bwd_bytes := payload_len }
      else
        { f with subflow_bwd_packets := f.subflow_bwd_packets + 1,
                 subflow_bwd_bytes := f.subflow_bwd_bytes + payload_len }
    else
      { f with total_bwd_subflows := 1,
               subflow_bwd_packets := 1,
               subflow_bwd_bytes := payload_len }

/-- FlowRecord::update_packet_length_stats in flow.rs (Welford updates; the
derived *_std fields, which apply a square root, are not modelled). -/
def FlowRecord.update_packet_length_stats (f : FlowRecord) (packet_len : Nat)
    (direction : FlowDirection) : FlowRecord :=
  let len : Rat := packet_len
  let total_packets : Nat := f.total_packets + 1
  let n : Rat := (total_packets : Nat)
  let delta := len - f.packet_len_mean
  let packet_len_mean := f.packet_len_mean + delta / n
  let delta2 := len - packet_len_mean
  let packet_len_m2 := f.packet_len_m2 + delta * delta2
  let packet_len_variance :=
    if total_packets > 1 then packet_len_m2 / (n - 1) else f.packet_len_variance
  let g :=
    { f with total_packets := total_packets,
             packet_len_mean := packet_len_mean,
             packet_len_m2 := packet_len_m2,
             packet_len_variance := packet_len_variance,
             packet_len_min := min f.packet_len_min packet_len,
             packet_len_max := max f.packet_len_max packet_len }
  match direction with
  | FlowDirection.Forward =>
    let fwd_packet_count : Nat := g.fwd_packet_count + 1
    let n_fwd : Rat := (fwd_packet_count : Nat)
    let delta := len - g.fwd_packet_len_mean
    let fwd_packet_len_mean := g.fwd_packet_len_mean + delta / n_fwd
    let delta2 := len - fwd_packet_len_mean
    let fwd_packet_len_m2 := g.fwd_packet_len_m2 + delta * delta2
    { g with fwd_packet_count := fwd_packet_count,
             total_fwd_packets := g.total_fwd_packets + 1,
             fwd_packet_len_mean := fwd_packet_len_mean,
             fwd_packet_len_m2 := fwd_packet_len_m2,
             fwd_packet_len_min := min g.fwd_packet_len_min packet_len,
             fwd_packet_len_max := max g.fwd_packet_len_max packet_len }
  | FlowDirection.Backward =>
    let bwd_packet_count : Nat := g.bwd_packet_count + 1
    let n_bwd : Rat := (bwd_packet_count : Nat)
    let delta := len - g.bwd_packet_len_mean
    let bwd_packet_len_mean := g.bwd_packet_len_mean + delta / n_bwd
    let delta2 := len - bwd_packet_len_mean
    let bwd_packet_len_m2 := g.bwd_packet_len_m2 + delta * delta2
    { g with bwd_packet_count := bwd_packet_count,
             total_bwd_packets := g.total_bwd_packets + 1,
             bwd_packet_len_mean := bwd_packet_len_mean,
             bwd_packet_len_m2 := bwd_packet_len_m2,
             bwd_packet_len_min := min g.bwd_packet_len_min packet_len,
             bwd_packet_len_max := max g.bwd_packet_len_max packet_len }

/-- FlowRecord::update_iat_stats in flow.rs.  The source folds flow_iat, not
the direction-specific IAT, into the per-direction min/max fields, and both
per-direction max updates call min instead of max; the embedding mirrors the
source lines exactly.  Plain u64 subtractions in the source are taken on
timestamps that are monotone along the packet sequences considered here, so
Nat subtraction agrees. -/
def FlowRecord.update_iat_stats (f : FlowRecord) (timestamp : Nat)
    (direction : FlowDirection) : FlowRecord :=
  let g :=
    if f.total_packets > 1 then
      -- flow_iat uses saturating_sub in the source
      let flow_iat := timestamp - f.last_packet_timestamp
      let n : Rat := f.total_packets - 1
      let delta := (flow_iat : Rat) - f.flow_iat_mean
      let flow_iat_mean := f.flow_iat_mean + delta / n
      let delta2 := (flow_iat : Rat) - flow_iat_mean
      let g0 :=
        { f with flow_iat_total := f.flow_iat_total + flow_iat,
                 flow_iat_min := min f.flow_iat_min flow_iat,
                 flow_iat_max := max f.flow_iat_max flow_iat,
                 flow_iat_mean := flow_iat_mean,
                 flow_iat_m2 := f.flow_iat_m2 + delta * delta2 }
      match direction with
      | FlowDirection.Forward =>
        if g0.last_fwd_packet_timestamp > 0 then
          let fwd_iat := timestamp - g0.last_fwd_packet_timestamp
          -- the source tests n_fwd > 1.0 on n_fwd = total_fwd_packets as f64,
          -- which is equivalent to the integer test total_fwd_packets > 1
          let n_fwd : Rat := g0.total_fwd_packets
          let g1 :=
            { g0 with fwd_iat_total := g0.fwd_iat_total + fwd_iat,
                      -- source: self.fwd_iat_min = self.fwd_iat_min.min(flow_iat)
                      fwd_iat_min := min g0.fwd_iat_min flow_iat,
                      -- source: self.fwd_iat_max = self.fwd_iat_max.min(flow_iat)
                      fwd_iat_max := min g0.fwd_iat_max flow_iat }
          if g0.total_fwd_packets > 1 then
            let delta := (fwd_iat : Rat) - g1.fwd_iat_mean
            let fwd_iat_mean := g1.fwd_iat_mean + delta / (n_fwd - 1)
            let delta2 := (fwd_iat : Rat) - fwd_iat_mean
            { g1 with fwd_iat_mean := fwd_iat_mean,
                      fwd_iat_m2 := g1.fwd_iat_m2 + delta * delta2,
                      last_fwd_packet_timestamp := timestamp }
          else
            { g1 with last_fwd_packet_timestamp := timestamp }
        else
          { g0 with last_fwd_packet_timestamp := timestamp }
      | FlowDirection.Backward =>
        if g0.last_bwd_packet_timestamp > 0 then
          let bwd_iat := timestamp - g0.last_bwd_packet_timestamp
          -- the source tests n_bwd > 1.0, equivalent to total_bwd_packets > 1
          let n_bwd : Rat := g0.total_bwd_packets
          let g1 :=
            { g0 with bwd_iat_total := g0.bwd_iat_total + bwd_iat,
                      -- source: self.bwd_iat_min = self.bwd_iat_min.min(flow_iat)
                      bwd_iat_min := min g0.bwd_iat_min flow_iat,
                      -- source: self.bwd_iat_max = self.bwd_iat_max.min(flow_iat)
                      bwd_iat_max := min g0.bwd_iat_max flow_iat }
          if g0.total_bwd_packets > 1 then
            let delta := (bwd_iat : Rat) - g1.bwd_iat_mean
            let bwd_iat_mean := g1.bwd_iat_mean + delta / (n_bwd - 1)
            let delta2 := (bwd_iat : Rat) - bwd_iat_mean
            { g1 with bwd_iat_mean := bwd_iat_mean,
                      bwd_iat_m2 := g1.bwd_iat_m2 + delta * delta2,
                      last_bwd_packet_timestamp := timestamp }
          else
            { g1 with last_bwd_packet_timestamp := timestamp }
        else
          { g0 with last_bwd_packet_timestamp := timestamp }
    else
      match direction with
      | FlowDirection.Forward => { f with last_fwd_packet_timestamp := timestamp }
      | FlowDirection.Backward => { f with last_bwd_packet_timestamp := timestamp }
  { g with last_packet_timestamp := timestamp }

/-- FlowRecord::update_active_time_stats in flow.rs.  The source lines
self.active_min.min(duration) and self.active_max.max(duration) compute a
value and discard it without assigning, so active_min and active_max are
left unchanged; the embedding mirrors that. -/
def FlowRecord.update_active_time_stats (f : FlowRecord) (duration : Nat) :
    FlowRecord :=
  let active_counts : Nat := f.active_counts + 1
  let n : Rat := (active_counts : Nat)
  let delta := (duration : Rat) - f.active_mean
  let active_mean := f.active_mean + delta / n
  let delta2 := (duration : Rat) - active_mean
  { f with active_counts := active_counts,
           active_time_tot := f.active_time_tot + duration,
           active_mean := active_mean,
           active_time_m2 := f.active_time_m2 + delta * delta2 }

/-- FlowRecord::update_idle_time_stats in flow.rs. -/
def FlowRecord.update_idle_time_stats (f : FlowRecord) (duration : Nat) :
    FlowRecord :=
  let idle_counts : Nat := f.idle_counts + 1
  let n : Rat := (idle_counts : Nat)
  let delta := (duration : Rat) - f.idle_mean
  let idle_mean := f.idle_mean + delta / n
  let delta2 := (duration : Rat) - idle_mean
  { f with idle_counts := idle_counts,
           idle_time_tot := f.idle_time_tot + duration,
           idle_min := if duration < f.idle_min then duration else f.idle_min,
           idle_max := if duration > f.idle_max then duration else f.idle_max,
           idle_mean := idle_mean,
           idle_time_m2 := f.idle_time_m2 + delta * delta2 }

/-- FlowRecord::update_active_idle_stats in flow.rs. -/
def FlowRecord.update_active_idle_stats (f : FlowRecord) (timestamp : Nat) :
    FlowRecord :=
  let g :=
    if f.total_packets > 1 then
      let time_since_last := timestamp - f.last_activity_time
      if time_since_last > ACTIVITY_TIMEOUT_US then
        if f.is_in_active_period then
          let active_duration := f.last_activity_time - f.current_active_start
          let g0 := f.update_active_time_stats active_duration
          { g0 with current_idle_start := g0.last_activity_time,
                    is_in_active_period := false }
        else
          f
      else
        if !f.is_in_active_period then
          let idle_duration := timestamp - f.current_idle_start
          let g0 := f.update_idle_time_stats idle_duration
          { g0 with current_active_start := timestamp,
                    is_in_active_period := true }
        else
          f
    else
      f
  { g with last_activity_time := timestamp }

/-- FlowRecord::finalize_fwd_bulk in flow.rs. -/
def FlowRecord.finalize_fwd_bulk (f : FlowRecord) : FlowRecord :=
  let g :=
    if f.fwd_consecutive_packets ≥ BULK_THRESHOLD then
      let num : Nat := f.num_fwd_bulk_transmissions + 1
      let bytes_tot := f.fwd_bytes_bulk_tot + f.fwd_bytes_curr_bulk
      let packet_tot := f.fwd_packet_bulk_tot + (f.fwd_consecutive_packets : Rat)
      let n_bulk : Rat := (num : Nat)
      let bulk_end := f.last_packet_timestamp
      let bulk_duration := bulk_end - f.fwd_bulk_start
      let g0 :=
        { f with num_fwd_bulk_transmissions := num,
                 fwd_bytes_bulk_tot := bytes_tot,
                 fwd_packet_bulk_tot := packet_tot,
                 fwd_bytes_bulk_avg := bytes_tot / n_bulk,
                 fwd_packet_bulk_avg := packet_tot / n_bulk,
                 fwd_bulk_end := bulk_end,
                 fwd_bulk_duration := bulk_duration }
      if bulk_duration > 0 then
        { g0 with fwd_bulk_rate_avg :=
            g0.fwd_bytes_curr_bulk / ((bulk_duration : Rat) / 1000000) }
      else
        g0
    else
      f
  { g with fwd_bytes_curr_bulk := 0, fwd_consecutive_packets := 0 }

/-- FlowRecord::finalize_bwd_bulk in flow.rs. -/
def FlowRecord.finalize_bwd_bulk (f : FlowRecord) : FlowRecord :=
  let g :=
    if f.bwd_consecutive_packets ≥ BULK_THRESHOLD then
      let num : Nat := f.num_bwd_bulk_transmissions + 1
      let bytes_tot := f.bwd_bytes_bulk_tot + f.bwd_bytes_curr_bulk
      let packet_tot := f.bwd_packet_bulk_tot + (f.bwd_consecutive_packets : Rat)
      let n_bulk : Rat := (num : Nat)
      let bulk_end := f.last_packet_timestamp
      let bulk_duration := bulk_end - f.bwd_bulk_start
      let g0 :=
        { f with num_bwd_bulk_transmissions := num,
                 bwd_bytes_bulk_tot := bytes_tot,
                 bwd_packet_bulk_tot := packet_tot,
                 bwd_bytes_bulk_avg := bytes_tot / n_bulk,
                 bwd_packet_bulk_avg := packet_tot / n_bulk,
                 bwd_bulk_end := bulk_end,
                 bwd_bulk_duration := bulk_duration }
      if bulk_duration > 0 then
        { g0 with bwd_bulk_rate_avg :=
            g0.bwd_bytes_curr_bulk / ((bulk_duration : Rat) / 1000000) }
      else
        g0
    else
      f
  { g with bwd_bytes_curr_bulk := 0, bwd_consecutive_packets := 0 }

/-- FlowRecord::update_bulk_features in flow.rs. -/
def FlowRecord.update_bulk_features (f : FlowRecord) (direction : FlowDirection)
    (payload_len : Nat) : FlowRecord :=
  match direction with
  | FlowDirection.Forward =>
    let g :=
      if f.last_bulk_direction = some FlowDirection.Forward then
        { f with fwd_consecutive_packets := f.fwd_consecutive_packets + 1 }
      else
        let g0 := if f.bwd_consecutive_packets ≥ BULK_THRESHOLD then
                    f.finalize_bwd_bulk
                  else f
        { g0 with fwd_consecutive_packets := 1,
                  fwd_bulk_start := g0.last_packet_timestamp }
    let g1 :=
      if payload_len > 0 then
        { g with fwd_bytes_curr_bulk := g.fwd_bytes_curr_bulk + (payload_len : Rat) }
      else g
    { g1 with last_bulk_direction := some FlowDirection.Forward }
  | FlowDirection.Backward =>
    let g :=
      if f.last_bulk_direction = some FlowDirection.Backward then
        { f with bwd_consecutive_packets := f.bwd_consecutive_packets + 1 }
      else
        let g0 := if f.fwd_consecutive_packets ≥ BULK_THRESHOLD then
                    f.finalize_fwd_bulk
                  else f
        { g0 with bwd_consecutive_packets := 1,
                  bwd_bulk_start := g0.last_packet_timestamp }
    let g1 :=
      if payload_len > 0 then
        { g with bwd_bytes_curr_bulk := g.bwd_bytes_curr_bulk + (payload_len : Rat) }
      else g
    { g1 with last_bulk_direction := some FlowDirection.Backward }

/-- FlowRecord::update_tcp_flags in flow.rs; the flag byte is modelled as a
Nat tested bit by bit (0x01 = FIN .. 0x80 = CWR). -/
def FlowRecord.update_tcp_flags (f : FlowRecord) (tcp_flags : Nat)
    (direction : FlowDirection) : FlowRecord :=
  let g0 := if tcp_flags.testBit 0 then
              { f with fin_flag_count := f.fin_flag_count + 1 } else f
  let g1 := if tcp_flags.testBit 1 then
              { g0 with syn_flag_count := g0.syn_flag_count + 1 } else g0
  let g2 := if tcp_flags.testBit 2 then
              { g1 with rst_flag_count := g1.rst_flag_count + 1 } else g1
  let g3 := if tcp_flags.testBit 3 then
              let h := { g2 with psh_flag_count := g2.psh_flag_count + 1 }
              match direction with
              | FlowDirection.Forward =>
                { h with fwd_psh_flags := h.fwd_psh_flags + 1 }
              | FlowDirection.Backward =>
                { h with bwd_psh_flags := h.bwd_psh_flags + 1 }
            else g2
  let g4 := if tcp_flags.testBit 4 then
              { g3 with ack_flag_count := g3.ack_flag_count + 1 } else g3
  let g5 := if tcp_flags.testBit 5 then
              let h := { g4 with urg_flag_count := g4.urg_flag_count + 1 }
              match direction with
              | FlowDirection.Forward =>
                { h with fwd_urg_flags := h.fwd_urg_flags + 1 }
              | FlowDirection.Backward =>
                { h with bwd_urg_flags := h.bwd_urg_flags + 1 }
            else g4
  let g6 := if tcp_flags.testBit 6 then
              { g5 with ece_flag_count := g5.ece_flag_count + 1 } else g5
  if tcp_flags.testBit 7 then
    { g6 with cwr_flag_count := g6.cwr_flag_count + 1 } else g6

/-- FlowRecord::calculate_derived_features in flow.rs (rates, averages and
ratios in exact rational arithmetic; the guarded divisions mirror the
source). -/
def FlowRecord.calculate_derived_features (f : FlowRecord) : FlowRecord :=
  let duration_seconds : Rat := (f.flow_duration : Rat) / 1000000
  -- the source tests duration_seconds > 0.0; the numerator is a natural
  -- number, so this is equivalent to the integer test flow_duration > 0
  let g0 :=
    if f.flow_duration > 0 then
      { f with flow_packets_per_sec := (f.total_packets : Rat) / duration_seconds,
               flow_bytes_per_sec := (f.total_bytes : Rat) / duration_seconds,
               fwd_packets_per_sec := (f.total_fwd_packets : Rat) / duration_seconds,
               bwd_packets_per_sec := (f.total_bwd_packets : Rat) / duration_seconds }
    else f
  let g1 :=
    if g0.total_packets > 0 then
      { g0 with avg_packet_size := (g0.total_bytes : Rat) / (g0.total_packets : Rat) }
    else g0
  let g2 :=
    if g1.total_fwd_packets > 0 then
      { g1 with fwd_segment_size_avg :=
          (g1.total_fwd_bytes : Rat) / (g1.total_fwd_packets : Rat) }
    else g1
  let g3 :=
    if g2.total_bwd_packets > 0 then
      { g2 with bwd_segment_size_avg :=
          (g2.total_bwd_bytes : Rat) / (g2.total_bwd_packets : Rat) }
    else g2
  if g3.total_fwd_bytes > 0 then
    { g3 with down_up_ratio := (g3.total_bwd_bytes : Rat) / (g3.total_fwd_bytes : Rat) }
  else g3

/-- FlowRecord::update_tcp_flow in flow.rs: the per-packet update, applying
the sub-updates in source order. -/
def FlowRecord.update_tcp_flow (f : FlowRecord) (timestamp : Nat)
    (src_ip dst_ip src_port dst_port : Nat) (_protocol : Nat)
    (packet_len : Nat) (payload_len : Option Nat) (tcp_flags : Nat)
    (window_size : Nat) (header_len : Nat) : FlowRecord :=
  let direction := f.get_flow_direction src_ip dst_ip src_port dst_port
  let payload_size := payload_len.getD 0
  let g0 := f.update_subflow_features timestamp direction payload_size
  let g1 := g0.update_packet_length_stats packet_len direction
  let g2 := { g1 with total_bytes := g1.total_bytes + payload_size }
  let g3 :=
    match direction with
    | FlowDirection.Forward =>
      let h0 := { g2 with total_fwd_bytes := g2.total_fwd_bytes + payload_size,
                          fwd_header_len := g2.fwd_header_len + header_len }
      let h1 :=
        if payload_size > 0 then
          -- fwd_seg_size_min is not modelled (floating-point infinity sentinel)
          { h0 with fwd_act_data_packets := h0.fwd_act_data_packets + 1 }
        else h0
      if h1.total_fwd_packets = 1 then
        { h1 with fwd_init_win_bytes := window_size }
      else h1
    | FlowDirection.Backward =>
      let h0 := { g2 with total_bwd_bytes := g2.total_bwd_bytes + payload_size,
                          bwd_header_len := g2.bwd_header_len + header_len }
      if h0.total_bwd_packets = 1 then
        { h0 with bwd_init_win_bytes := window_size }
      else h0
  let g4 := g3.update_iat_stats timestamp direction
  let g5 := g4.update_active_idle_stats timestamp
  let g6 := g5.update_bulk_features direction payload_size
  let g7 := g6.update_tcp_flags tcp_flags direction
  let g8 := { g7 with flow_last_time := timestamp,
                      flow_duration := timestamp - g7.flow_start_time,
                      last_checked_time := timestamp,
                      status := FlowStatus.Active }
  g8.calculate_derived_features

/-- FlowRecord::should_terminate in flow.rs: FIN flag or flow age beyond the
120-second timeout, measured from flow_start_time. -/
def FlowRecord.should_terminate (f : FlowRecord) (current_time : Nat)
    (has_fin_flag : Bool) : Bool :=
  if has_fin_flag then true
  else current_time - f.flow_start_time > FLOW_TIMEOUT_US

end Layton

namespace Layton

/-- struct ParsedPacket in capture/sniffer.rs: one parsed TCP/IPv4 packet as
handed to the engine.  Note that it carries only the normalized flow key,
not the original source/destination of the frame. -/
structure ParsedPacket where
  timestamp : Nat
  flow_key : FlowKey
  packet_len : Nat
  payload_len : Nat
  tcp_flags : Nat
  window_size : Nat
  header_len : Nat
deriving Repr

/-- PacketSniffer::parse_packet in capture/sniffer.rs, starting from the raw
IPv4/TCP header fields of an Ethernet frame: the flow key is normalized with
FlowKey::new, the total header length is 14 (Ethernet) + IPv4 header + TCP
header, and payload_len is the frame length minus the total header length,
saturating at 0 (Nat subtraction). -/
def parse_packet (timestamp src_ip dst_ip src_port dst_port : Nat)
    (tcp_flags window_size : Nat) (frame_len ip_header_len tcp_header_len : Nat) :
    ParsedPacket :=
  let total_header_len := 14 + ip_header_len + tcp_header_len
  { timestamp := timestamp,
    flow_key := FlowKey.new src_ip dst_ip src_port dst_port 6,
    packet_len := frame_len,
    payload_len := frame_len - total_header_len,
    tcp_flags := tcp_flags,
    window_size := window_size,
    header_len := total_header_len }

/-- Lookup in the engine flow table (HashMap keyed by FlowKey in engine.rs),
modelled as an association list. -/
def findFlow : List (FlowKey × FlowRecord) → FlowKey → Option FlowRecord
  | [], _ => none
  | (k, f) :: rest, key => if k = key then some f else findFlow rest key

/-- Insert-or-replace in the engine flow table. -/
def putFlow : List (FlowKey × FlowRecord) → FlowKey → FlowRecord →
    List (FlowKey × FlowRecord)
  | [], key, f => [(key, f)]
  | (k, g) :: rest, key, f =>
    if k = key then (k, f) :: rest else (k, g) :: putFlow rest key f

/-- Removal from the engine flow table. -/
def eraseFlow : List (FlowKey × FlowRecord) → FlowKey →
    List (FlowKey × FlowRecord)
  | [], _ => []
  | (k, g) :: rest, key => if k = key then rest else (k, g) :: eraseFlow rest key

/-- State of processing_loop in engine.rs: the flow table, the per-tick and
lifetime packet/byte accumulators, and the flows sent to the classifier
channel so far (in order). -/
structure EngineState where
  flows : List (FlowKey × FlowRecord)
  pkts_acc : Nat
  bytes_acc : Nat
  total_pkts : Nat
  total_bytes : Nat
  emitted : List FlowRecord

/-- The engine state at loop entry. -/
def EngineState.init : EngineState :=
  { flows := [], pkts_acc := 0, bytes_acc := 0, total_pkts := 0,
    total_bytes := 0, emitted := [] }

/-- The packet-received arm of the select loop in processing_loop
(engine.rs): normalize the key, look up or insert the flow record (deriving
the first direction from the normalized key fields), apply update_tcp_flow
with the key fields passed as src/dst, terminate on FIN or age, and bump the
per-tick and lifetime packet/byte accumulators by 1 and payload_len. -/
def process_packet (st : EngineState) (pkt : ParsedPacket) : EngineState :=
  let normalized_key := FlowKey.new pkt.flow_key.ip_a pkt.flow_key.ip_b
      pkt.flow_key.port_a pkt.flow_key.port_b pkt.flow_key.protocol
  let flow0 :=
    match findFlow st.flows normalized_key with
    | some f => f
    | none =>
      let first_direction :=
        if lexLe (pkt.flow_key.ip_a, pkt.flow_key.port_a)
                 (pkt.flow_key.ip_b, pkt.flow_key.port_b) then
          FlowDirection.Forward
        else
          FlowDirection.Backward
      FlowRecord.new normalized_key pkt.timestamp first_direction
  let has_fin := pkt.tcp_flags.testBit 0
  let flow1 := flow0.update_tcp_flow pkt.timestamp
      pkt.flow_key.ip_a pkt.flow_key.ip_b pkt.flow_key.port_a pkt.flow_key.port_b
      pkt.flow_key.protocol pkt.packet_len (some pkt.payload_len)
      pkt.tcp_flags pkt.window_size pkt.header_len
  let flows1 :=
    if flow1.should_terminate pkt.timestamp has_fin then
      eraseFlow st.flows normalized_key
    else
      putFlow st.flows normalized_key flow1
  let emitted1 :=
    if flow1.should_terminate pkt.timestamp has_fin then
      st.emitted ++ [flow1]
    else
      st.emitted
  { flows := flows1,
    pkts_acc := st.pkts_acc + 1,
    bytes_acc := st.bytes_acc + pkt.payload_len,
    total_pkts := st.total_pkts + 1,
    total_bytes := st.total_bytes + pkt.payload_len,
    emitted := emitted1 }

/-- Repeated packet-received events of processing_loop. -/
def process_packets (st : EngineState) (ps : List ParsedPacket) : EngineState :=
  ps.foldl process_packet st

end Layton

namespace Layton

/-- ATTACK_THRESHOLD in classifier/classifier.rs (0.85 as an exact rational;
probabilities are modelled as exact rationals since no claim depends on
float rounding). -/
def ATTACK_THRESHOLD : Rat := mkRat 85 100

/-- struct Inference in classifier.rs. -/
structure Inference where
  pred_label : Nat
  probs : List Rat
deriving DecidableEq, Repr

/-- struct MultiResult in classifier.rs. -/
structure MultiResult where
  bin : Inference
  multi : Option Inference
deriving DecidableEq, Repr

/-- One step of the Rust Iterator::max_by fold over (index, probability)
pairs, as used in run_multiclass: the accumulator is kept only when it
compares strictly greater than the next element, so on ties the later
element wins. -/
def max_by_step (acc : Option (Nat × Rat)) (x : Nat × Rat) : Option (Nat × Rat) :=
  match acc with
  | none => some x
  | some a => if x.2 < a.2 then some a else some x

/-- Rust Iterator::max_by over a list of (index, probability) pairs (returns
the last element among equal maxima). -/
def max_by_last (l : List (Nat × Rat)) : Option (Nat × Rat) :=
  l.foldl max_by_step none

/-- NidsModel::run_binary in classifier.rs, given the probability vector
returned by the binary ONNX model: errors (None) when fewer than two
probabilities are returned, otherwise the predicted label is 1 iff
probs[1] is at least ATTACK_THRESHOLD. -/
def run_binary (probs : List Rat) : Option Inference :=
  if probs.length < 2 then none
  else
    let p_attack := probs.getD 1 0
    let pred_label := if p_attack ≥ ATTACK_THRESHOLD then 1 else 0
    some { pred_label := pred_label, probs := probs }

/-- NidsModel::run_multiclass in classifier.rs, given the probability vector
returned by the multi-class ONNX model: the predicted label is the index
produced by max_by over the enumerated probabilities (errors, i.e. None, on
an empty vector). -/
def run_multiclass (probs : List Rat) : Option Inference :=
  match max_by_last probs.enum with
  | none => none
  | some p => some { pred_label := p.1, probs := probs }

/-- NidsModel::classify_flow in classifier.rs, with the two model outputs
supplied as parameters (the ONNX sessions are external to this repository):
run the binary stage, then run the multi-class stage iff the binary label
is 1. -/
def classify_flow (binProbs multiProbs : List Rat) : Option MultiResult :=
  match run_binary binProbs with
  | none => none
  | some bin =>
    if bin.pred_label = 1 then
      match run_multiclass multiProbs with
      | none => none
      | some m => some { bin := bin, multi := some m }
    else
      some { bin := bin, multi := none }

/-- Entry out[6] of extract_l1_features in classifier.rs: the raw field
flow.bwd_packet_len_min widened with an `as f32` cast.  The cast preserves
the numeric value up to f32 rounding (4294967295 rounds to 4294967296), so
the entry is 0 exactly when the field is 0; the embedding returns the field
value before the cast. -/
def extract_l1_feature_bwd_packet_len_min (f : FlowRecord) : Nat :=
  f.bwd_packet_len_min

/-- Entry out[12] of extract_l2_features in classifier.rs: the raw field
flow.flow_iat_min widened with an `as f32` cast (value preserved up to f32
rounding; 0 exactly when the field is 0). -/
def extract_l2_feature_flow_iat_min (f : FlowRecord) : Nat :=
  f.flow_iat_min

/-- Packet arguments of a single FlowRecord::update_tcp_flow call. -/
structure PacketArgs where
  timestamp : Nat
  src_ip : Nat
  dst_ip : Nat
  src_port : Nat
  dst_port : Nat
  protocol : Nat
  packet_len : Nat
  payload_len : Option Nat
  tcp_flags : Nat
  window_size : Nat
  header_len : Nat
deriving Repr

/-- Apply one update_tcp_flow call with the given packet arguments. -/
def FlowRecord.apply_packet (f : FlowRecord) (p : PacketArgs) : FlowRecord :=
  f.update_tcp_flow p.timestamp p.src_ip p.dst_ip p.src_port p.dst_port
    p.protocol p.packet_len p.payload_len p.tcp_flags p.window_size p.header_len

/-- Apply a sequence of update_tcp_flow calls in order. -/
def FlowRecord.apply_packets (f : FlowRecord) (ps : List PacketArgs) : FlowRecord :=
  ps.foldl FlowRecord.apply_packet f

end Layton

namespace Layton

/-- The flow used in the C9 scenario, with one committed active period of
duration 7 microseconds. -/
def activeScenarioFlow : FlowRecord :=
  (FlowRecord.new (FlowKey.new 1 2 3 4 6) 0 FlowDirection.Forward).update_active_time_stats 7

/-- The flow used in the C3 scenario: forward packet at t = 1000000, backward
packet at t = 1010000, forward packet at t = 1030000, via update_tcp_flow with
the true packet endpoints.  On the third packet the direction-specific IAT is
30000 while the flow-level IAT is 20000. -/
def iatScenarioFlow : FlowRecord :=
  (((FlowRecord.new (FlowKey.new 1 2 1000 80 6) 1000000
        FlowDirection.Forward).update_tcp_flow
      1000000 1 2 1000 80 6 60 (some 0) 2 64 54).update_tcp_flow
      1010000 2 1 80 1000 6 60 (some 0) 18 64 54).update_tcp_flow
      1030000 1 2 1000 80 6 60 (some 0) 16 64 54

/-- The flow used in the C2 scenario: a single forward packet with payload
100, so the backward direction and the flow IAT were never observed. -/
def forwardOnlyFlow : FlowRecord :=
  (FlowRecord.new (FlowKey.new 1 2 1000 80 6) 1000000
      FlowDirection.Forward).update_tcp_flow
    1000000 1 2 1000 80 6 154 (some 100) 24 64 54

end Layton

namespace Layton

/-- C9: the claim states that after the k-th committed active period the
fields active_min and active_max bound the committed durations, so after a
single commit of duration 7 one would have active_min ≤ 7 ≤ active_max.  In
the source, update_active_time_stats computes active_min.min(duration) and
active_max.max(duration) but discards the results, so active_min stays at
the u64::MAX sentinel and active_max at 0, and the bound fails. -/
theorem c9_active_min_max_never_assigned :
    activeScenarioFlow.active_counts = 1 ∧
    activeScenarioFlow.active_time_tot = 7 ∧
    activeScenarioFlow.active_min = u64Max ∧
    activeScenarioFlow.active_max = 0 ∧
    ¬ (activeScenarioFlow.active_min ≤ 7 ∧ 7 ≤ activeScenarioFlow.active_max) := by
  refine ⟨rfl, rfl, rfl, rfl, ?_⟩
  decide

/-- C3: the claim states that a forward packet with a prior forward packet
folds the forward IAT (here 30000) into fwd_iat_min and fwd_iat_max.  In the
source, update_iat_stats folds the flow-level IAT (here 20000) into
fwd_iat_min instead, and updates fwd_iat_max with min rather than max, so
after the scenario fwd_iat_total records the true forward IAT 30000 while
fwd_iat_min is 20000 (not 30000) and fwd_iat_max is 0 (not 30000). -/
theorem c3_direction_iat_min_max_use_flow_iat :
    iatScenarioFlow.fwd_iat_total = 30000 ∧
    iatScenarioFlow.fwd_iat_min = 20000 ∧
    iatScenarioFlow.fwd_iat_max = 0 ∧
    iatScenarioFlow.flow_iat_max = 20000 := by
  refine ⟨by decide, by decide, by decide, by decide⟩

/-- C2: the claim states that serialized *_min entries of never-observed
statistics are 0.  For a flow whose only packet is forward, the backward
packet-length minimum was never observed and the flow IAT was never
observed, yet extract_l1_features serializes the raw u32::MAX sentinel at
out[6] and extract_l2_features the raw u64::MAX sentinel at out[12], both
nonzero. -/
theorem c2_min_sentinels_serialized_raw :
    forwardOnlyFlow.total_packets = 1 ∧
    forwardOnlyFlow.total_bwd_packets = 0 ∧
    extract_l1_feature_bwd_packet_len_min forwardOnlyFlow = u32Max ∧
    extract_l2_feature_flow_iat_min forwardOnlyFlow = u64Max ∧
    u32Max ≠ 0 ∧ u64Max ≠ 0 := by
  refine ⟨by decide, by decide, by decide, by decide, by decide, by decide⟩

/-- C5: should_terminate returns true iff the packet carried a FIN flag or
the age of the flow measured from flow_start_time strictly exceeds
120000000 microseconds; the statement quantifies over every flow record, so
the result depends only on flow_start_time and in particular not on
flow_last_time or last_activity_time. -/
theorem c5_should_terminate_fin_or_age (f : FlowRecord) (now : Nat)
    (has_fin : Bool) (_h : f.flow_start_time ≤ now) :
    f.should_terminate now has_fin = true ↔
      (has_fin = true ∨ 120000000 < now - f.flow_start_time) := by
  cases has_fin <;>
    simp [FlowRecord.should_terminate, FLOW_TIMEOUT_US]

/-- Witness for C5 at a concrete flow and time. -/
theorem c5_should_terminate_fin_or_age_witness :
    (FlowRecord.new (FlowKey.new 1 2 3 4 6) 1000
        FlowDirection.Forward).should_terminate 121000001 false = true :=
  (c5_should_terminate_fin_or_age _ 121000001 false (by decide)).mpr
    (Or.inr (by decide))

/-- C7: FlowKey::new is symmetric in the two endpoints, and the constructed
key always satisfies (ip_a, port_a) ≤ (ip_b, port_b) in the lexicographic
order on (ip, port) pairs. -/
theorem c7_flowkey_new_comm_and_canonical (a b pa pb p : Nat) :
    FlowKey.new a b pa pb p = FlowKey.new b a pb pa p ∧
    lexLe ((FlowKey.new a b pa pb p).ip_a, (FlowKey.new a b pa pb p).port_a)
          ((FlowKey.new a b pa pb p).ip_b, (FlowKey.new a b pa pb p).port_b)
      = true := by
  have hiff : ∀ x y u v : Nat, lexLe (x, u) (y, v) = true ↔
      (x < y ∨ (x = y ∧ u ≤ v)) := by
    intro x y u v
    simp [lexLe, Bool.or_eq_true, Bool.and_eq_true, decide_eq_true_iff,
      beq_iff_eq]
  have htot : ∀ x y u v : Nat, lexLe (x, u) (y, v) = false →
      lexLe (y, v) (x, u) = true := by
    intro x y u v h
    refine (hiff _ _ _ _).mpr ?_
    have h' : ¬ (x < y ∨ (x = y ∧ u ≤ v)) := by
      intro hc
      rw [← hiff x y u v, h] at hc
      exact Bool.false_ne_true hc
    omega
  cases h1 : lexLe (a, pa) (b, pb) with
  | true =>
    cases h2 : lexLe (b, pb) (a, pa) with
    | true =>
      have e1 := (hiff _ _ _ _).mp h1
      have e2 := (hiff _ _ _ _).mp h2
      have hab : a = b := by omega
      have hpp : pa = pb := by omega
      subst hab
      subst hpp
      exact ⟨by simp [FlowKey.new], by simp [FlowKey.new, h1]⟩
    | false =>
      refine ⟨?_, ?_⟩
      · simp [FlowKey.new, h1, h2]
      · simp [FlowKey.new, h1]
  | false =>
    have h2 : lexLe (b, pb) (a, pa) = true := htot _ _ _ _ h1
    refine ⟨?_, ?_⟩
    · simp [FlowKey.new, h1, h2]
    · simp [FlowKey.new, h1, h2]

end Layton

namespace Layton

/-- The six-packet exchange of the C1 scenario, built from the raw frames:
the initiator is (ip 1, port 1000), the responder (ip 2, port 80); packets
2 and 5 are the responder's replies.  Flags: SYN, SYN+ACK, ACK, PSH+ACK
with 100 payload bytes, ACK, FIN+ACK.  Every frame has a 20-byte IPv4 and a
20-byte TCP header, so the header total is 54 and only packet 4 has
payload. -/
def handshakePackets : List ParsedPacket :=
  [ parse_packet 1000000 1 2 1000 80 2 64 54 20 20,
    parse_packet 1001000 2 1 80 1000 18 64 54 20 20,
    parse_packet 1002000 1 2 1000 80 16 64 54 20 20,
    parse_packet 1003000 1 2 1000 80 24 64 154 20 20,
    parse_packet 1004000 2 1 80 1000 16 64 54 20 20,
    parse_packet 1005000 1 2 1000 80 17 64 54 20 20 ]

/-- The engine state after the C1 scenario. -/
def handshakeFinal : EngineState :=
  process_packets EngineState.init handshakePackets

set_option maxRecDepth 8000 in
/-- C1: the claim states the derived direction tracks the packet's true
source endpoint, so the six-packet exchange (four initiator packets, two
replies) should yield forward_packets = 4 and backward_packets = 2.  In the
source, parse_packet stores only the normalized FlowKey in the
ParsedPacket, and processing_loop passes the key's canonical (ip_a, port_a,
ip_b, port_b) to update_tcp_flow as the packet's src/dst, so
get_flow_direction always compares the key with itself and every packet is
classified Forward: the classifier receives the flow with
forward_packets = 6 and backward_packets = 0. -/
theorem c1_replies_classified_forward :
    handshakeFinal.emitted.map FlowRecord.total_packets = [6] ∧
    handshakeFinal.emitted.map FlowRecord.total_fwd_packets = [6] ∧
    handshakeFinal.emitted.map FlowRecord.total_bwd_packets = [0] ∧
    handshakeFinal.emitted.map FlowRecord.fin_flag_count = [1] ∧
    handshakeFinal.flows.length = 0 ∧
    ¬ (handshakeFinal.emitted.map FlowRecord.total_fwd_packets = [4] ∧
       handshakeFinal.emitted.map FlowRecord.total_bwd_packets = [2]) := by
  refine ⟨by decide, by decide, by decide, by decide, by decide, by decide⟩

end Layton

namespace Layton

/-- Helper: a max_by fold whose accumulator is already some value never
returns none. -/
theorem foldl_max_by_step_some (ys : List (Nat × Rat)) :
    ∀ a : Nat × Rat, ∃ r, List.foldl max_by_step (some a) ys = some r := by
  induction ys with
  | nil => exact fun a => ⟨a, rfl⟩
  | cons y ys ih =>
    intro a
    rw [List.foldl_cons]
    by_cases hy : y.2 < a.2
    · rw [show max_by_step (some a) y = some a by simp [max_by_step, hy]]
      exact ih a
    · rw [show max_by_step (some a) y = some y by simp [max_by_step, hy]]
      exact ih y

/-- Helper: max_by returns none exactly on the empty list. -/
theorem max_by_last_eq_none (ps : List (Nat × Rat)) :
    max_by_last ps = none ↔ ps = [] := by
  cases ps with
  | nil => simp [max_by_last]
  | cons y ys =>
    simp only [max_by_last, List.foldl_cons]
    rw [show max_by_step none y = some y from rfl]
    obtain ⟨r, hr⟩ := foldl_max_by_step_some ys y
    simp [hr]

/-- Helper: run_multiclass succeeds on every nonempty probability vector. -/
theorem run_multiclass_isSome (probs : List Rat) (h : probs ≠ []) :
    ∃ inf, run_multiclass probs = some inf := by
  cases hml : max_by_last probs.enum with
  | none =>
    exfalso
    have := (max_by_last_eq_none _).mp hml
    exact h (List.enum_eq_nil.mp this)
  | some p =>
    exact ⟨⟨p.1, probs⟩, by simp [run_multiclass, hml]⟩

/-- C4: for every pair of model outputs with at least two binary
probabilities and a nonempty multi-class vector, classification succeeds,
the binary label is 1 exactly when the attack probability (probs[1]) is at
least the 0.85 threshold (boundary included), and the MultiResult carries a
multi-class inference exactly in that case. -/
theorem c4_binary_threshold_gates_multiclass (binProbs multiProbs : List Rat)
    (h2 : 2 ≤ binProbs.length) (hm : multiProbs ≠ []) :
    ∃ r : MultiResult, classify_flow binProbs multiProbs = some r ∧
      r.bin.pred_label = (if binProbs.getD 1 0 ≥ ATTACK_THRESHOLD then 1 else 0) ∧
      (r.bin.pred_label = 1 ↔ binProbs.getD 1 0 ≥ ATTACK_THRESHOLD) ∧
      (r.multi.isSome = true ↔ binProbs.getD 1 0 ≥ ATTACK_THRESHOLD) := by
  have hlt : ¬ binProbs.length < 2 := Nat.not_lt.mpr h2
  have hbin : run_binary binProbs =
      some ⟨if binProbs.getD 1 0 ≥ ATTACK_THRESHOLD then 1 else 0, binProbs⟩ := by
    rw [run_binary, if_neg hlt]
  by_cases hp : binProbs.getD 1 0 ≥ ATTACK_THRESHOLD
  · obtain ⟨minf, hminf⟩ := run_multiclass_isSome multiProbs hm
    have hl1 : (if binProbs.getD 1 0 ≥ ATTACK_THRESHOLD then 1 else 0) = 1 :=
      if_pos hp
    refine ⟨⟨⟨1, binProbs⟩, some minf⟩, ?_, ?_, ?_, ?_⟩
    · simp only [classify_flow, hbin, hl1]
      simp [hminf]
    · show (1 : Nat) = if binProbs.getD 1 0 ≥ ATTACK_THRESHOLD then 1 else 0
      rw [hl1]
    · exact iff_of_true rfl hp
    · exact iff_of_true rfl hp
  · have hl0 : (if binProbs.getD 1 0 ≥ ATTACK_THRESHOLD then 1 else 0) = 0 :=
      if_neg hp
    refine ⟨⟨⟨0, binProbs⟩, none⟩, ?_, ?_, ?_, ?_⟩
    · simp only [classify_flow, hbin, hl0]
      simp
    · show (0 : Nat) = if binProbs.getD 1 0 ≥ ATTACK_THRESHOLD then 1 else 0
      rw [hl0]
    · refine iff_of_false ?_ hp
      show ¬ ((0 : Nat) = 1)
      decide
    · refine iff_of_false ?_ hp
      show ¬ ((none : Option Inference).isSome = true)
      simp

/-- Witness for C4 on the threshold boundary: p_attack is exactly 0.85 and
the multi-class stage runs. -/
theorem c4_binary_threshold_gates_multiclass_witness :
    ∃ r : MultiResult,
      classify_flow [mkRat 3 20, mkRat 17 20] [mkRat 1 1] = some r ∧
      r.bin.pred_label =
        (if List.getD [mkRat 3 20, mkRat 17 20] 1 0 ≥ ATTACK_THRESHOLD then 1 else 0) ∧
      (r.bin.pred_label = 1 ↔
        List.getD [mkRat 3 20, mkRat 17 20] 1 0 ≥ ATTACK_THRESHOLD) ∧
      (r.multi.isSome = true ↔
        List.getD [mkRat 3 20, mkRat 17 20] 1 0 ≥ ATTACK_THRESHOLD) :=
  c4_binary_threshold_gates_multiclass [mkRat 3 20, mkRat 17 20] [mkRat 1 1]
    (by decide) (by decide)

/-- C6 counterexample: on the tied vector [1/2, 1/2] the claim predicts
label 0 (lowest index among maxima), but run_multiclass returns label 1:
Rust Iterator::max_by keeps the later element on ties. -/
theorem c6_tie_counterexample :
    (run_multiclass [mkRat 1 2, mkRat 1 2]).map Inference.pred_label = some 1 ∧
    List.getD [mkRat 1 2, mkRat 1 2] 0 0 = List.getD [mkRat 1 2, mkRat 1 2] 1 0 := by
  exact ⟨by decide, by decide⟩

end Layton

namespace Layton

/-- Helper: max_by over an appended element is one fold step. -/
theorem max_by_last_append_step (e : List (Nat × Rat)) (x : Nat × Rat) :
    max_by_last (e ++ [x]) = max_by_step (max_by_last e) x := by
  simp [max_by_last, List.foldl_append]

/-- Helper: the element returned by max_by over an enumerated probability
vector attains the maximum, and every later index is strictly below it (on
ties the later index wins, so the returned index is the last maximum). -/
theorem max_by_last_enum_spec (probs : List Rat) :
    ∀ j q, max_by_last probs.enum = some (j, q) →
      j < probs.length ∧ probs.getD j 0 = q ∧
      (∀ k, k < probs.length → probs.getD k 0 ≤ q) ∧
      (∀ k, j < k → k < probs.length → probs.getD k 0 < q) := by
  induction probs using List.reverseRecOn with
  | nil =>
    intro j q h
    simp [max_by_last] at h
  | append_singleton l x ih =>
    intro j q h
    rw [List.enum_append, List.enumFrom_singleton, max_by_last_append_step] at h
    cases hml : max_by_last l.enum with
    | none =>
      have hl : l = [] := List.enum_eq_nil.mp ((max_by_last_eq_none _).mp hml)
      subst hl
      rw [hml] at h
      simp only [max_by_step, Option.some.injEq, Prod.mk.injEq] at h
      obtain ⟨hj0, hqx⟩ := h
      refine ⟨?_, ?_, ?_, ?_⟩
      · simp [← hj0]
      · simp [← hj0, ← hqx]
      · intro k hk
        simp only [List.nil_append, List.length_singleton] at hk
        have hk0 : k = 0 := by omega
        subst hk0
        simp [← hqx]
      · intro k h0 h1
        simp only [List.nil_append, List.length_singleton] at h1
        omega
    | some a =>
      rw [hml] at h
      obtain ⟨i, w⟩ := a
      obtain ⟨hi, hgw, hmax, hlast⟩ := ih i w hml
      rw [List.length_append, List.length_singleton]
      by_cases hx : x < w
      · simp only [max_by_step, if_pos hx, Option.some.injEq, Prod.mk.injEq] at h
        obtain ⟨hji, hqw⟩ := h
        refine ⟨by omega, ?_, ?_, ?_⟩
        · rw [← hji, ← hqw, List.getD_append _ _ _ _ hi]
          exact hgw
        · intro k hk
          rw [← hqw]
          by_cases hkl : k < l.length
          · rw [List.getD_append _ _ _ _ hkl]
            exact hmax k hkl
          · have hke : k = l.length := by omega
            subst hke
            rw [List.getD_append_right _ _ _ _ (le_refl _)]
            simpa using le_of_lt hx
        · intro k hjk hk
          rw [← hqw]
          by_cases hkl : k < l.length
          · rw [List.getD_append _ _ _ _ hkl]
            exact hlast k (by omega) hkl
          · have hke : k = l.length := by omega
            subst hke
            rw [List.getD_append_right _ _ _ _ (le_refl _)]
            simpa using hx
      · simp only [max_by_step, if_neg hx, Option.some.injEq, Prod.mk.injEq] at h
        obtain ⟨hjl, hqx⟩ := h
        have hwx : w ≤ x := le_of_not_lt hx
        refine ⟨by omega, ?_, ?_, ?_⟩
        · rw [← hjl, ← hqx, List.getD_append_right _ _ _ _ (le_refl _)]
          simp
        · intro k hk
          rw [← hqx]
          by_cases hkl : k < l.length
          · rw [List.getD_append _ _ _ _ hkl]
            exact le_trans (hmax k hkl) hwx
          · have hke : k = l.length := by omega
            subst hke
            rw [List.getD_append_right _ _ _ _ (le_refl _)]
            simp
        · intro k hjk hk
          rw [← hjl] at hjk
          omega

/-- C6 amended: the multi-class predicted label is an argmax of the
probability vector, but ties are broken by the highest index, not the
lowest: every index after the predicted one carries a strictly smaller
probability (Rust Iterator::max_by keeps the later of two equal
elements). -/
theorem c6_argmax_ties_highest_index (probs : List Rat) (inf : Inference)
    (h : run_multiclass probs = some inf) :
    inf.pred_label < probs.length ∧
    (∀ k, k < probs.length → probs.getD k 0 ≤ probs.getD inf.pred_label 0) ∧
    (∀ k, inf.pred_label < k → k < probs.length →
      probs.getD k 0 < probs.getD inf.pred_label 0) := by
  cases hml : max_by_last probs.enum with
  | none =>
    unfold run_multiclass at h
    rw [hml] at h
    exact absurd h (by simp)
  | some p =>
    obtain ⟨j, q⟩ := p
    unfold run_multiclass at h
    rw [hml] at h
    simp only [Option.some.injEq] at h
    obtain ⟨h1, h2, h3, h4⟩ := max_by_last_enum_spec probs j q hml
    subst h
    refine ⟨h1, ?_, ?_⟩
    · intro k hk
      show probs.getD k 0 ≤ probs.getD j 0
      rw [h2]
      exact h3 k hk
    · intro k hjk hk
      show probs.getD k 0 < probs.getD j 0
      rw [h2]
      exact h4 k hjk hk

/-- Witness for C6 amended at the vector [1/3, 2/3]: label 1 is returned
and dominates index 0. -/
theorem c6_argmax_ties_highest_index_witness :
    (run_multiclass [mkRat 1 3, mkRat 2 3]).map Inference.pred_label = some 1 ∧
    List.getD [mkRat 1 3, mkRat 2 3] 0 0 ≤ List.getD [mkRat 1 3, mkRat 2 3] 1 0 := by
  have h := c6_argmax_ties_highest_index [mkRat 1 3, mkRat 2 3]
      ⟨1, [mkRat 1 3, mkRat 2 3]⟩ (by decide)
  exact ⟨by decide, h.2.1 0 (by decide)⟩

end Layton

namespace Layton

/-- Helper: update_subflow_features leaves packet/byte totals and the
derived average and ratio untouched. -/
@[simp] theorem update_subflow_features_counts (f : FlowRecord) (ts : Nat)
    (d : FlowDirection) (pl : Nat) :
    (f.update_subflow_features ts d pl).total_packets = f.total_packets ∧
    (f.update_subflow_features ts d pl).total_fwd_packets = f.total_fwd_packets ∧
    (f.update_subflow_features ts d pl).total_bwd_packets = f.total_bwd_packets ∧
    (f.update_subflow_features ts d pl).total_bytes = f.total_bytes ∧
    (f.update_subflow_features ts d pl).total_fwd_bytes = f.total_fwd_bytes ∧
    (f.update_subflow_features ts d pl).total_bwd_bytes = f.total_bwd_bytes ∧
    (f.update_subflow_features ts d pl).avg_packet_size = f.avg_packet_size ∧
    (f.update_subflow_features ts d pl).down_up_ratio = f.down_up_ratio := by
  cases d <;>
    simp [FlowRecord.update_subflow_features,
      apply_ite FlowRecord.total_packets, apply_ite FlowRecord.total_fwd_packets,
      apply_ite FlowRecord.total_bwd_packets, apply_ite FlowRecord.total_bytes,
      apply_ite FlowRecord.total_fwd_bytes, apply_ite FlowRecord.total_bwd_bytes,
      apply_ite FlowRecord.avg_packet_size, apply_ite FlowRecord.down_up_ratio]

/-- Helper: a forward packet-length update bumps the total and forward
packet counts and touches no byte totals. -/
@[simp] theorem update_packet_length_stats_fwd (f : FlowRecord) (len : Nat) :
    (f.update_packet_length_stats len FlowDirection.Forward).total_packets
      = f.total_packets + 1 ∧
    (f.update_packet_length_stats len FlowDirection.Forward).total_fwd_packets
      = f.total_fwd_packets + 1 ∧
    (f.update_packet_length_stats len FlowDirection.Forward).total_bwd_packets
      = f.total_bwd_packets ∧
    (f.update_packet_length_stats len FlowDirection.Forward).total_bytes
      = f.total_bytes ∧
    (f.update_packet_length_stats len FlowDirection.Forward).total_fwd_bytes
      = f.total_fwd_bytes ∧
    (f.update_packet_length_stats len FlowDirection.Forward).total_bwd_bytes
      = f.total_bwd_bytes ∧
    (f.update_packet_length_stats len FlowDirection.Forward).avg_packet_size
      = f.avg_packet_size ∧
    (f.update_packet_length_stats len FlowDirection.Forward).down_up_ratio
      = f.down_up_ratio := by
  simp [FlowRecord.update_packet_length_stats,
    apply_ite FlowRecord.total_packets, apply_ite FlowRecord.total_fwd_packets,
    apply_ite FlowRecord.total_bwd_packets, apply_ite FlowRecord.total_bytes,
    apply_ite FlowRecord.total_fwd_bytes, apply_ite FlowRecord.total_bwd_bytes,
    apply_ite FlowRecord.avg_packet_size, apply_ite FlowRecord.down_up_ratio]

/-- Helper: a backward packet-length update bumps the total and backward
packet counts and touches no byte totals. -/
@[simp] theorem update_packet_length_stats_bwd (f : FlowRecord) (len : Nat) :
    (f.update_packet_length_stats len FlowDirection.Backward).total_packets
      = f.total_packets + 1 ∧
    (f.update_packet_length_stats len FlowDirection.Backward).total_fwd_packets
      = f.total_fwd_packets ∧
    (f.update_packet_length_stats len FlowDirection.Backward).total_bwd_packets
      = f.total_bwd_packets + 1 ∧
    (f.update_packet_length_stats len FlowDirection.Backward).total_bytes
      = f.total_bytes ∧
    (f.update_packet_length_stats len FlowDirection.Backward).total_fwd_bytes
      = f.total_fwd_bytes ∧
    (f.update_packet_length_stats len FlowDirection.Backward).total_bwd_bytes
      = f.total_bwd_bytes ∧
    (f.update_packet_length_stats len FlowDirection.Backward).avg_packet_size
      = f.avg_packet_size ∧
    (f.update_packet_length_stats len FlowDirection.Backward).down_up_ratio
      = f.down_up_ratio := by
  simp [FlowRecord.update_packet_length_stats,
    apply_ite FlowRecord.total_packets, apply_ite FlowRecord.total_fwd_packets,
    apply_ite FlowRecord.total_bwd_packets, apply_ite FlowRecord.total_bytes,
    apply_ite FlowRecord.total_fwd_bytes, apply_ite FlowRecord.total_bwd_bytes,
    apply_ite FlowRecord.avg_packet_size, apply_ite FlowRecord.down_up_ratio]

/-- Helper: update_iat_stats leaves packet/byte totals and the derived
average and ratio untouched. -/
@[simp] theorem update_iat_stats_counts (f : FlowRecord) (ts : Nat)
    (d : FlowDirection) :
    (f.update_iat_stats ts d).total_packets = f.total_packets ∧
    (f.update_iat_stats ts d).total_fwd_packets = f.total_fwd_packets ∧
    (f.update_iat_stats ts d).total_bwd_packets = f.total_bwd_packets ∧
    (f.update_iat_stats ts d).total_bytes = f.total_bytes ∧
    (f.update_iat_stats ts d).total_fwd_bytes = f.total_fwd_bytes ∧
    (f.update_iat_stats ts d).total_bwd_bytes = f.total_bwd_bytes ∧
    (f.update_iat_stats ts d).avg_packet_size = f.avg_packet_size ∧
    (f.update_iat_stats ts d).down_up_ratio = f.down_up_ratio := by
  cases d <;>
    simp [FlowRecord.update_iat_stats,
      apply_ite FlowRecord.total_packets, apply_ite FlowRecord.total_fwd_packets,
      apply_ite FlowRecord.total_bwd_packets, apply_ite FlowRecord.total_bytes,
      apply_ite FlowRecord.total_fwd_bytes, apply_ite FlowRecord.total_bwd_bytes,
      apply_ite FlowRecord.avg_packet_size, apply_ite FlowRecord.down_up_ratio]

/-- Helper: committing an active period leaves packet/byte totals and the
derived average and ratio untouched. -/
@[simp] theorem update_active_time_stats_counts (f : FlowRecord) (dur : Nat) :
    (f.update_active_time_stats dur).total_packets = f.total_packets ∧
    (f.update_active_time_stats dur).total_fwd_packets = f.total_fwd_packets ∧
    (f.update_active_time_stats dur).total_bwd_packets = f.total_bwd_packets ∧
    (f.update_active_time_stats dur).total_bytes = f.total_bytes ∧
    (f.update_active_time_stats dur).total_fwd_bytes = f.total_fwd_bytes ∧
    (f.update_active_time_stats dur).total_bwd_bytes = f.total_bwd_bytes ∧
    (f.update_active_time_stats dur).avg_packet_size = f.avg_packet_size ∧
    (f.update_active_time_stats dur).down_up_ratio = f.down_up_ratio := by
  simp [FlowRecord.update_active_time_stats]

/-- Helper: committing an idle period leaves packet/byte totals and the
derived average and ratio untouched. -/
@[simp] theorem update_idle_time_stats_counts (f : FlowRecord) (dur : Nat) :
    (f.update_idle_time_stats dur).total_packets = f.total_packets ∧
    (f.update_idle_time_stats dur).total_fwd_packets = f.total_fwd_packets ∧
    (f.update_idle_time_stats dur).total_bwd_packets = f.total_bwd_packets ∧
    (f.update_idle_time_stats dur).total_bytes = f.total_bytes ∧
    (f.update_idle_time_stats dur).total_fwd_bytes = f.total_fwd_bytes ∧
    (f.update_idle_time_stats dur).total_bwd_bytes = f.total_bwd_bytes ∧
    (f.update_idle_time_stats dur).avg_packet_size = f.avg_packet_size ∧
    (f.update_idle_time_stats dur).down_up_ratio = f.down_up_ratio := by
  simp [FlowRecord.update_idle_time_stats]

/-- Helper: active/idle tracking leaves packet/byte totals and the derived
average and ratio untouched. -/
@[simp] theorem update_active_idle_stats_counts (f : FlowRecord) (ts : Nat) :
    (f.update_active_idle_stats ts).total_packets = f.total_packets ∧
    (f.update_active_idle_stats ts).total_fwd_packets = f.total_fwd_packets ∧
    (f.update_active_idle_stats ts).total_bwd_packets = f.total_bwd_packets ∧
    (f.update_active_idle_stats ts).total_bytes = f.total_bytes ∧
    (f.update_active_idle_stats ts).total_fwd_bytes = f.total_fwd_bytes ∧
    (f.update_active_idle_stats ts).total_bwd_bytes = f.total_bwd_bytes ∧
    (f.update_active_idle_stats ts).avg_packet_size = f.avg_packet_size ∧
    (f.update_active_idle_stats ts).down_up_ratio = f.down_up_ratio := by
  simp [FlowRecord.update_active_idle_stats,
    apply_ite FlowRecord.total_packets, apply_ite FlowRecord.total_fwd_packets,
    apply_ite FlowRecord.total_bwd_packets, apply_ite FlowRecord.total_bytes,
    apply_ite FlowRecord.total_fwd_bytes, apply_ite FlowRecord.total_bwd_bytes,
    apply_ite FlowRecord.avg_packet_size, apply_ite FlowRecord.down_up_ratio]

/-- Helper: committing a forward bulk leaves packet/byte totals and the
derived average and ratio untouched. -/
@[simp] theorem finalize_fwd_bulk_counts (f : FlowRecord) :
    (f.finalize_fwd_bulk).total_packets = f.total_packets ∧
    (f.finalize_fwd_bulk).total_fwd_packets = f.total_fwd_packets ∧
    (f.finalize_fwd_bulk).total_bwd_packets = f.total_bwd_packets ∧
    (f.finalize_fwd_bulk).total_bytes = f.total_bytes ∧
    (f.finalize_fwd_bulk).total_fwd_bytes = f.total_fwd_bytes ∧
    (f.finalize_fwd_bulk).total_bwd_bytes = f.total_bwd_bytes ∧
    (f.finalize_fwd_bulk).avg_packet_size = f.avg_packet_size ∧
    (f.finalize_fwd_bulk).down_up_ratio = f.down_up_ratio := by
  simp [FlowRecord.finalize_fwd_bulk,
    apply_ite FlowRecord.total_packets, apply_ite FlowRecord.total_fwd_packets,
    apply_ite FlowRecord.total_bwd_packets, apply_ite FlowRecord.total_bytes,
    apply_ite FlowRecord.total_fwd_bytes, apply_ite FlowRecord.total_bwd_bytes,
    apply_ite FlowRecord.avg_packet_size, apply_ite FlowRecord.down_up_ratio]

/-- Helper: committing a backward bulk leaves packet/byte totals and the
derived average and ratio untouched. -/
@[simp] theorem finalize_bwd_bulk_counts (f : FlowRecord) :
    (f.finalize_bwd_bulk).total_packets = f.total_packets ∧
    (f.finalize_bwd_bulk).total_fwd_packets = f.total_fwd_packets ∧
    (f.finalize_bwd_bulk).total_bwd_packets = f.total_bwd_packets ∧
    (f.finalize_bwd_bulk).total_bytes = f.total_bytes ∧
    (f.finalize_bwd_bulk).total_fwd_bytes = f.total_fwd_bytes ∧
    (f.finalize_bwd_bulk).total_bwd_bytes = f.total_bwd_bytes ∧
    (f.finalize_bwd_bulk).avg_packet_size = f.avg_packet_size ∧
    (f.finalize_bwd_bulk).down_up_ratio = f.down_up_ratio := by
  simp [FlowRecord.finalize_bwd_bulk,
    apply_ite FlowRecord.total_packets, apply_ite FlowRecord.total_fwd_packets,
    apply_ite FlowRecord.total_bwd_packets, apply_ite FlowRecord.total_bytes,
    apply_ite FlowRecord.total_fwd_bytes, apply_ite FlowRecord.total_bwd_bytes,
    apply_ite FlowRecord.avg_packet_size, apply_ite FlowRecord.down_up_ratio]

/-- Helper: bulk tracking leaves packet/byte totals and the derived average
and ratio untouched. -/
@[simp] theorem update_bulk_features_counts (f : FlowRecord)
    (d : FlowDirection) (pl : Nat) :
    (f.update_bulk_features d pl).total_packets = f.total_packets ∧
    (f.update_bulk_features d pl).total_fwd_packets = f.total_fwd_packets ∧
    (f.update_bulk_features d pl).total_bwd_packets = f.total_bwd_packets ∧
    (f.update_bulk_features d pl).total_bytes = f.total_bytes ∧
    (f.update_bulk_features d pl).total_fwd_bytes = f.total_fwd_bytes ∧
    (f.update_bulk_features d pl).total_bwd_bytes = f.total_bwd_bytes ∧
    (f.update_bulk_features d pl).avg_packet_size = f.avg_packet_size ∧
    (f.update_bulk_features d pl).down_up_ratio = f.down_up_ratio := by
  cases d <;>
    simp [FlowRecord.update_bulk_features,
      apply_ite FlowRecord.total_packets, apply_ite FlowRecord.total_fwd_packets,
      apply_ite FlowRecord.total_bwd_packets, apply_ite FlowRecord.total_bytes,
      apply_ite FlowRecord.total_fwd_bytes, apply_ite FlowRecord.total_bwd_bytes,
      apply_ite FlowRecord.avg_packet_size, apply_ite FlowRecord.down_up_ratio]

/-- Helper: flag counting leaves packet/byte totals and the derived average
and ratio untouched. -/
@[simp] theorem update_tcp_flags_counts (f : FlowRecord) (fl : Nat)
    (d : FlowDirection) :
    (f.update_tcp_flags fl d).total_packets = f.total_packets ∧
    (f.update_tcp_flags fl d).total_fwd_packets = f.total_fwd_packets ∧
    (f.update_tcp_flags fl d).total_bwd_packets = f.total_bwd_packets ∧
    (f.update_tcp_flags fl d).total_bytes = f.total_bytes ∧
    (f.update_tcp_flags fl d).total_fwd_bytes = f.total_fwd_bytes ∧
    (f.update_tcp_flags fl d).total_bwd_bytes = f.total_bwd_bytes ∧
    (f.update_tcp_flags fl d).avg_packet_size = f.avg_packet_size ∧
    (f.update_tcp_flags fl d).down_up_ratio = f.down_up_ratio := by
  cases d <;>
    simp [FlowRecord.update_tcp_flags,
      apply_ite FlowRecord.total_packets, apply_ite FlowRecord.total_fwd_packets,
      apply_ite FlowRecord.total_bwd_packets, apply_ite FlowRecord.total_bytes,
      apply_ite FlowRecord.total_fwd_bytes, apply_ite FlowRecord.total_bwd_bytes,
      apply_ite FlowRecord.avg_packet_size, apply_ite FlowRecord.down_up_ratio]

/-- Helper: calculate_derived_features leaves the packet/byte totals
untouched. -/
@[simp] theorem calculate_derived_features_counts (f : FlowRecord) :
    (f.calculate_derived_features).total_packets = f.total_packets ∧
    (f.calculate_derived_features).total_fwd_packets = f.total_fwd_packets ∧
    (f.calculate_derived_features).total_bwd_packets = f.total_bwd_packets ∧
    (f.calculate_derived_features).total_bytes = f.total_bytes ∧
    (f.calculate_derived_features).total_fwd_bytes = f.total_fwd_bytes ∧
    (f.calculate_derived_features).total_bwd_bytes = f.total_bwd_bytes := by
  simp [FlowRecord.calculate_derived_features,
    apply_ite FlowRecord.total_packets, apply_ite FlowRecord.total_fwd_packets,
    apply_ite FlowRecord.total_bwd_packets, apply_ite FlowRecord.total_bytes,
    apply_ite FlowRecord.total_fwd_bytes, apply_ite FlowRecord.total_bwd_bytes]

/-- Helper: after calculate_derived_features the average packet size is
total_bytes over total_packets whenever a packet has been counted, and is
otherwise left as it was. -/
@[simp] theorem calculate_derived_features_avg (f : FlowRecord) :
    (f.calculate_derived_features).avg_packet_size =
      (if 0 < f.total_packets
       then (f.total_bytes : Rat) / (f.total_packets : Rat)
       else f.avg_packet_size) := by
  by_cases h : 0 < f.total_packets <;>
    simp [FlowRecord.calculate_derived_features, h,
      apply_ite FlowRecord.total_packets, apply_ite FlowRecord.total_fwd_packets,
      apply_ite FlowRecord.total_bwd_packets, apply_ite FlowRecord.total_bytes,
      apply_ite FlowRecord.total_fwd_bytes, apply_ite FlowRecord.total_bwd_bytes,
      apply_ite FlowRecord.avg_packet_size]

/-- Helper: after calculate_derived_features the down/up ratio is backward
bytes over forward bytes whenever forward bytes are positive, and is
otherwise left as it was. -/
@[simp] theorem calculate_derived_features_ratio (f : FlowRecord) :
    (f.calculate_derived_features).down_up_ratio =
      (if 0 < f.total_fwd_bytes
       then (f.total_bwd_bytes : Rat) / (f.total_fwd_bytes : Rat)
       else f.down_up_ratio) := by
  by_cases h : 0 < f.total_fwd_bytes <;>
    simp [FlowRecord.calculate_derived_features, h,
      apply_ite FlowRecord.total_packets, apply_ite FlowRecord.total_fwd_packets,
      apply_ite FlowRecord.total_bwd_packets, apply_ite FlowRecord.total_bytes,
      apply_ite FlowRecord.total_fwd_bytes, apply_ite FlowRecord.total_bwd_bytes,
      apply_ite FlowRecord.down_up_ratio]

end Layton

namespace Layton

/-- Helper: one update_tcp_flow call bumps the total packet count by one,
the total byte count by the payload size, and the per-direction counters
according to the derived direction. -/
theorem update_tcp_flow_totals (f : FlowRecord) (ts si di sp dp pr len : Nat)
    (pl : Option Nat) (fl ws hl : Nat) :
    (f.update_tcp_flow ts si di sp dp pr len pl fl ws hl).total_packets
      = f.total_packets + 1 ∧
    (f.update_tcp_flow ts si di sp dp pr len pl fl ws hl).total_bytes
      = f.total_bytes + pl.getD 0 ∧
    (f.update_tcp_flow ts si di sp dp pr len pl fl ws hl).total_fwd_packets
      = f.total_fwd_packets +
        (if f.get_flow_direction si di sp dp = FlowDirection.Forward then 1 else 0) ∧
    (f.update_tcp_flow ts si di sp dp pr len pl fl ws hl).total_bwd_packets
      = f.total_bwd_packets +
        (if f.get_flow_direction si di sp dp = FlowDirection.Backward then 1 else 0) ∧
    (f.update_tcp_flow ts si di sp dp pr len pl fl ws hl).total_fwd_bytes
      = f.total_fwd_bytes +
        (if f.get_flow_direction si di sp dp = FlowDirection.Forward then pl.getD 0 else 0) ∧
    (f.update_tcp_flow ts si di sp dp pr len pl fl ws hl).total_bwd_bytes
      = f.total_bwd_bytes +
        (if f.get_flow_direction si di sp dp = FlowDirection.Backward then pl.getD 0 else 0) := by
  rcases hd : f.get_flow_direction si di sp dp with _ | _ <;>
    simp [FlowRecord.update_tcp_flow, hd,
      apply_ite FlowRecord.total_packets, apply_ite FlowRecord.total_fwd_packets,
      apply_ite FlowRecord.total_bwd_packets, apply_ite FlowRecord.total_bytes,
      apply_ite FlowRecord.total_fwd_bytes, apply_ite FlowRecord.total_bwd_bytes]

/-- Helper: after every update_tcp_flow call the average packet size equals
the payload-byte total over the packet total. -/
theorem update_tcp_flow_avg (f : FlowRecord) (ts si di sp dp pr len : Nat)
    (pl : Option Nat) (fl ws hl : Nat) :
    (f.update_tcp_flow ts si di sp dp pr len pl fl ws hl).avg_packet_size
      = ((f.total_bytes + pl.getD 0 : Nat) : Rat) /
        ((f.total_packets + 1 : Nat) : Rat) := by
  rcases hd : f.get_flow_direction si di sp dp with _ | _ <;>
    simp [FlowRecord.update_tcp_flow, hd, Nat.succ_pos,
      apply_ite FlowRecord.total_packets, apply_ite FlowRecord.total_bytes,
      apply_ite FlowRecord.avg_packet_size]

/-- Helper: after every update_tcp_flow call the down/up ratio equals
backward bytes over forward bytes when forward bytes are positive and is
otherwise unchanged. -/
theorem update_tcp_flow_ratio (f : FlowRecord) (ts si di sp dp pr len : Nat)
    (pl : Option Nat) (fl ws hl : Nat) :
    (f.update_tcp_flow ts si di sp dp pr len pl fl ws hl).down_up_ratio
      = (if 0 < (f.update_tcp_flow ts si di sp dp pr len pl fl ws hl).total_fwd_bytes
         then ((f.update_tcp_flow ts si di sp dp pr len pl fl ws hl).total_bwd_bytes : Rat) /
              ((f.update_tcp_flow ts si di sp dp pr len pl fl ws hl).total_fwd_bytes : Rat)
         else f.down_up_ratio) := by
  obtain ⟨-, -, -, -, h5, h6⟩ :=
    update_tcp_flow_totals f ts si di sp dp pr len pl fl ws hl
  rw [h5, h6]
  rcases hd : f.get_flow_direction si di sp dp with _ | _ <;>
    simp [FlowRecord.update_tcp_flow, hd,
      apply_ite FlowRecord.total_packets, apply_ite FlowRecord.total_fwd_bytes,
      apply_ite FlowRecord.total_bwd_bytes, apply_ite FlowRecord.down_up_ratio]

/-- The invariant of C8 and C10: totals split over directions, and the
derived average and ratio are quotients of the payload-byte totals. -/
def flowInv (f : FlowRecord) : Prop :=
  f.total_packets = f.total_fwd_packets + f.total_bwd_packets ∧
  f.total_bytes = f.total_fwd_bytes + f.total_bwd_bytes ∧
  (0 < f.total_packets →
    f.avg_packet_size = (f.total_bytes : Rat) / (f.total_packets : Rat)) ∧
  f.down_up_ratio =
    (if 0 < f.total_fwd_bytes
     then (f.total_bwd_bytes : Rat) / (f.total_fwd_bytes : Rat) else 0)

/-- Helper: a fresh flow record satisfies the invariant. -/
theorem flowInv_new (key : FlowKey) (start : Nat) (d : FlowDirection) :
    flowInv (FlowRecord.new key start d) := by
  refine ⟨rfl, rfl, ?_, ?_⟩ <;> simp [FlowRecord.new]

/-- Helper: update_tcp_flow preserves the invariant. -/
theorem flowInv_apply_packet (f : FlowRecord) (p : PacketArgs)
    (hf : flowInv f) : flowInv (f.apply_packet p) := by
  obtain ⟨h1, h2, h3, h4⟩ := hf
  obtain ⟨e1, e2, e3, e4, e5, e6⟩ :=
    update_tcp_flow_totals f p.timestamp p.src_ip p.dst_ip p.src_port p.dst_port
      p.protocol p.packet_len p.payload_len p.tcp_flags p.window_size p.header_len
  have e7 := update_tcp_flow_avg f p.timestamp p.src_ip p.dst_ip p.src_port
      p.dst_port p.protocol p.packet_len p.payload_len p.tcp_flags p.window_size
      p.header_len
  have e8 := update_tcp_flow_ratio f p.timestamp p.src_ip p.dst_ip p.src_port
      p.dst_port p.protocol p.packet_len p.payload_len p.tcp_flags p.window_size
      p.header_len
  unfold FlowRecord.apply_packet
  refine ⟨?_, ?_, ?_, ?_⟩
  · rw [e1, e3, e4]
    rcases f.get_flow_direction p.src_ip p.dst_ip p.src_port p.dst_port <;>
      simp <;> omega
  · rw [e2, e5, e6]
    rcases f.get_flow_direction p.src_ip p.dst_ip p.src_port p.dst_port <;>
      simp <;> omega
  · intro _
    rw [e7, e1, e2]
  · rw [e8]
    by_cases hp : 0 < (f.update_tcp_flow p.timestamp p.src_ip p.dst_ip p.src_port
        p.dst_port p.protocol p.packet_len p.payload_len p.tcp_flags p.window_size
        p.header_len).total_fwd_bytes
    · rw [if_pos hp, if_pos hp]
    · rw [if_neg hp, if_neg hp]
      rw [e5] at hp
      have hf0 : f.total_fwd_bytes = 0 := by omega
      rw [h4, if_neg (by omega)]

/-- Helper: the invariant is preserved along any packet sequence. -/
theorem flowInv_apply_packets (f : FlowRecord) (ps : List PacketArgs)
    (hf : flowInv f) : flowInv (f.apply_packets ps) := by
  induction ps generalizing f with
  | nil => simpa [FlowRecord.apply_packets] using hf
  | cons p ps ih =>
    have hstep : f.apply_packets (p :: ps) = (f.apply_packet p).apply_packets ps := by
      simp [FlowRecord.apply_packets]
    rw [hstep]
    exact ih _ (flowInv_apply_packet f p hf)

/-- Helper: the flow byte total after a packet sequence is the initial
total plus the sum of the payload lengths. -/
theorem apply_packets_total_bytes (f : FlowRecord) (ps : List PacketArgs) :
    (f.apply_packets ps).total_bytes
      = f.total_bytes + (ps.map (fun p => p.payload_len.getD 0)).sum := by
  induction ps generalizing f with
  | nil => simp [FlowRecord.apply_packets]
  | cons p ps ih =>
    have hstep : f.apply_packets (p :: ps) = (f.apply_packet p).apply_packets ps := by
      simp [FlowRecord.apply_packets]
    rw [hstep, ih]
    obtain ⟨-, e2, -, -, -, -⟩ :=
      update_tcp_flow_totals f p.timestamp p.src_ip p.dst_ip p.src_port p.dst_port
        p.protocol p.packet_len p.payload_len p.tcp_flags p.window_size p.header_len
    rw [show (f.apply_packet p).total_bytes = f.total_bytes + p.payload_len.getD 0 from e2]
    simp [Nat.add_assoc]

/-- Helper: the flow packet total after a packet sequence is the initial
total plus the number of packets. -/
theorem apply_packets_total_packets (f : FlowRecord) (ps : List PacketArgs) :
    (f.apply_packets ps).total_packets = f.total_packets + ps.length := by
  induction ps generalizing f with
  | nil => simp [FlowRecord.apply_packets]
  | cons p ps ih =>
    have hstep : f.apply_packets (p :: ps) = (f.apply_packet p).apply_packets ps := by
      simp [FlowRecord.apply_packets]
    rw [hstep, ih]
    obtain ⟨e1, -, -, -, -, -⟩ :=
      update_tcp_flow_totals f p.timestamp p.src_ip p.dst_ip p.src_port p.dst_port
        p.protocol p.packet_len p.payload_len p.tcp_flags p.window_size p.header_len
    rw [show (f.apply_packet p).total_packets = f.total_packets + 1 from e1]
    simp
    omega

/-- Helper: the engine lifetime and per-tick byte accumulators advance by
the payload length of each processed packet. -/
theorem process_packets_byte_counters (ps : List ParsedPacket) :
    ∀ st : EngineState,
      (process_packets st ps).total_bytes
        = st.total_bytes + (ps.map ParsedPacket.payload_len).sum ∧
      (process_packets st ps).bytes_acc
        = st.bytes_acc + (ps.map ParsedPacket.payload_len).sum := by
  induction ps with
  | nil => intro st; simp [process_packets]
  | cons p ps ih =>
    intro st
    have hstep : process_packets st (p :: ps)
        = process_packets (process_packet st p) ps := rfl
    rw [hstep]
    obtain ⟨ha, hb⟩ := ih (process_packet st p)
    rw [ha, hb]
    have h1 : (process_packet st p).total_bytes = st.total_bytes + p.payload_len := rfl
    have h2 : (process_packet st p).bytes_acc = st.bytes_acc + p.payload_len := rfl
    rw [h1, h2]
    constructor <;> simp [Nat.add_assoc]

end Layton

namespace Layton

/-- C8: for every flow built from a fresh record by any sequence of
update_tcp_flow calls, the total packet count is the sum of the forward and
backward packet counts, and the total byte count is the sum of the forward
and backward byte counts. -/
theorem c8_totals_split_by_direction (key : FlowKey) (start : Nat)
    (d0 : FlowDirection) (ps : List PacketArgs) :
    ((FlowRecord.new key start d0).apply_packets ps).total_packets
      = ((FlowRecord.new key start d0).apply_packets ps).total_fwd_packets
        + ((FlowRecord.new key start d0).apply_packets ps).total_bwd_packets ∧
    ((FlowRecord.new key start d0).apply_packets ps).total_bytes
      = ((FlowRecord.new key start d0).apply_packets ps).total_fwd_bytes
        + ((FlowRecord.new key start d0).apply_packets ps).total_bwd_bytes := by
  obtain ⟨h1, h2, -, -⟩ :=
    flowInv_apply_packets (FlowRecord.new key start d0) ps
      (flowInv_new key start d0)
  exact ⟨h1, h2⟩

/-- C10: byte accounting is payload-based at every level.  parse_packet
derives payload_len as the frame length minus the 14-byte Ethernet header,
the IPv4 header and the TCP header (saturating), and keeps the frame length
only in packet_len; a flow built from any nonempty packet sequence has
total_bytes equal to the sum of the payload lengths (split across the two
direction counters), avg_packet_size equal to payload bytes over packet
count and down_up_ratio equal to backward over forward payload bytes; the
engine lifetime and per-tick byte accumulators advance by payload_len; and
a flow whose packets all carry payload 0 has total_bytes = 0. -/
theorem c10_byte_counters_use_payload (key : FlowKey) (start : Nat)
    (d0 : FlowDirection) (p : PacketArgs) (ps : List PacketArgs)
    (ts si di sp dp fl ws frame ipl tcpl : Nat)
    (st : EngineState) (pkts : List ParsedPacket) :
    (parse_packet ts si di sp dp fl ws frame ipl tcpl).payload_len
      = frame - (14 + ipl + tcpl) ∧
    (parse_packet ts si di sp dp fl ws frame ipl tcpl).packet_len = frame ∧
    ((FlowRecord.new key start d0).apply_packets (p :: ps)).total_bytes
      = ((p :: ps).map (fun q => q.payload_len.getD 0)).sum ∧
    ((FlowRecord.new key start d0).apply_packets (p :: ps)).total_fwd_bytes
      + ((FlowRecord.new key start d0).apply_packets (p :: ps)).total_bwd_bytes
      = ((p :: ps).map (fun q => q.payload_len.getD 0)).sum ∧
    ((FlowRecord.new key start d0).apply_packets (p :: ps)).avg_packet_size
      = ((((p :: ps).map (fun q => q.payload_len.getD 0)).sum : Nat) : Rat)
        / (((p :: ps).length : Nat) : Rat) ∧
    ((FlowRecord.new key start d0).apply_packets (p :: ps)).down_up_ratio
      = (if 0 < ((FlowRecord.new key start d0).apply_packets (p :: ps)).total_fwd_bytes
         then (((FlowRecord.new key start d0).apply_packets (p :: ps)).total_bwd_bytes : Rat)
              / (((FlowRecord.new key start d0).apply_packets (p :: ps)).total_fwd_bytes : Rat)
         else 0) ∧
    (process_packets st pkts).total_bytes
      = st.total_bytes + (pkts.map ParsedPacket.payload_len).sum ∧
    (process_packets st pkts).bytes_acc
      = st.bytes_acc + (pkts.map ParsedPacket.payload_len).sum ∧
    ((FlowRecord.new key start d0).apply_packets
        ((p :: ps).map (fun q => { q with payload_len := some 0 }))).total_bytes = 0 := by
  obtain ⟨i1, i2, i3, i4⟩ :=
    flowInv_apply_packets (FlowRecord.new key start d0) (p :: ps)
      (flowInv_new key start d0)
  have hbytes := apply_packets_total_bytes (FlowRecord.new key start d0) (p :: ps)
  have hcount := apply_packets_total_packets (FlowRecord.new key start d0) (p :: ps)
  have hb0 : (FlowRecord.new key start d0).total_bytes = 0 := rfl
  have hc0 : (FlowRecord.new key start d0).total_packets = 0 := rfl
  rw [hb0] at hbytes
  rw [hc0] at hcount
  obtain ⟨he1, he2⟩ := process_packets_byte_counters pkts st
  refine ⟨rfl, rfl, by simpa using hbytes, ?_, ?_, i4, he1, he2, ?_⟩
  · rw [← i2]
    simpa using hbytes
  · have hpos : 0 < ((FlowRecord.new key start d0).apply_packets (p :: ps)).total_packets := by
      rw [hcount]
      simp
    have := i3 hpos
    rw [this, hcount]
    rw [show ((FlowRecord.new key start d0).apply_packets (p :: ps)).total_bytes
        = ((p :: ps).map (fun q => q.payload_len.getD 0)).sum from by simpa using hbytes]
    simp
  · have hz := apply_packets_total_bytes (FlowRecord.new key start d0)
      ((p :: ps).map (fun q => { q with payload_len := some 0 }))
    rw [hb0] at hz
    have hzero : ∀ l : List PacketArgs,
        (List.map (fun _ : PacketArgs => (0 : Nat)) l).sum = 0 := by
      intro l
      induction l with
      | nil => rfl
      | cons a l _ih => simp
    rw [hz, List.map_map]
    show 0 + (List.map (fun _ : PacketArgs => (0 : Nat)) (p :: ps)).sum = 0
    rw [hzero]

end Layton
